import Mathlib

/-!
Shallow embedding of the invoicenow repository: the Express invoice
routes and SQLite row model (`api/src/routes/invoices.ts`, `api/src/db.ts`),
the Solana Pay service (`api/src/services/solana-pay.ts`), the payment
page's double-or-nothing flow (`app/pages/pay/[id].tsx`), and — modelled
from the specification, since `api/src/routes/lottery.ts` is not among the
provided sources — the lottery settlement and pool accounting.
Amounts are rationals (the code uses JS numbers for token amounts);
database integers are `Int`; JS truthiness on the relevant field types is
made explicit.
-/

/-- JS truthiness for a string field: the empty string is falsy. -/
def jsTruthyStr (s : String) : Bool := !(s == "")

/-- JS truthiness for a numeric field: `0` is falsy. -/
def jsTruthyInt (n : Int) : Bool := !(n == 0)

/-- JS truthiness for a nullable string column: `null` and `""` are falsy. -/
def jsTruthyOpt : Option String → Bool
  | none => false
  | some s => !(s == "")

/-- The JS idiom `x || null` on an optional string: `""` collapses to `null`. -/
def jsOrNull : Option String → Option String
  | none => none
  | some s => if s == "" then none else some s

/-- One row of the `invoices` table (`api/src/db.ts`, CREATE TABLE invoices). -/
structure Invoice where
  id : String
  creator_wallet : String
  client_email : Option String
  client_wallet : Option String
  amount : Int
  token_mint : String
  due_date : Int
  memo : Option String
  status : String
  created_at : Int
  paid_at : Option Int
  tx_signature : Option String
  on_chain_address : Option String
  payment_link : Option String
  milestones : Option String
  reminder_count : Int
  last_reminder_at : Option Int
deriving Repr, DecidableEq

/-- The request body of `POST /v1/inv` (`CreateInvoiceBody` in
`api/src/routes/invoices.ts`); `milestones` is carried in its
JSON-serialized form, which is how the handler stores it. -/
structure CreateInvoiceBody where
  creatorWallet : String
  clientEmail : Option String
  amount : Int
  tokenMint : String
  dueDate : Int
  memo : Option String
  milestones : Option String
deriving Repr, DecidableEq

/-- The invoice store: the `invoices` table as a list of rows
(`id` is the primary key, so ids are unique in any reachable store). -/
def invoiceIds (store : List Invoice) : List String := store.map (fun r => r.id)

/-- Row produced by `invoiceQueries.create` plus the column defaults of the
schema: status defaults to `'pending'`, reminder_count to `0`, every column
not in the INSERT list to NULL (`api/src/db.ts`). The handler passes
`clientEmail || null` and `memo || null`. -/
def createRow (body : CreateInvoiceBody) (id link : String) (now : Int) : Invoice :=
  { id := id
    creator_wallet := body.creatorWallet
    client_email := jsOrNull body.clientEmail
    client_wallet := none
    amount := body.amount
    token_mint := body.tokenMint
    due_date := body.dueDate
    memo := jsOrNull body.memo
    status := "pending"
    created_at := now
    paid_at := none
    tx_signature := none
    on_chain_address := none
    payment_link := some link
    milestones := body.milestones
    reminder_count := 0
    last_reminder_at := none }

/-- All four required request fields are truthy: the negation of the
handler's guard `!creatorWallet || !amount || !tokenMint || !dueDate`. -/
def requiredPresent (body : CreateInvoiceBody) : Bool :=
  jsTruthyStr body.creatorWallet && jsTruthyInt body.amount &&
    jsTruthyStr body.tokenMint && jsTruthyInt body.dueDate

/-- Response of the create-invoice handler: HTTP status, the JSON error
message when there is one, and the invoice returned on success. -/
structure CreateResp where
  status : Nat
  error : Option String
  invoice : Option Invoice
deriving Repr, DecidableEq

/-- `POST /v1/inv` (`api/src/routes/invoices.ts`, create invoice). The
freshly generated nanoid `id` and the already-computed payment link are
inputs; a primary-key conflict on INSERT throws in better-sqlite3 and is
caught by the handler's catch-all, giving 500. On success the handler
re-reads the row by id and responds 201 with it. -/
def createInvoice (store : List Invoice) (body : CreateInvoiceBody)
    (id link : String) (now : Int) : CreateResp × List Invoice :=
  if !(jsTruthyStr body.creatorWallet) || !(jsTruthyInt body.amount) ||
      !(jsTruthyStr body.tokenMint) || !(jsTruthyInt body.dueDate) then
    ({ status := 400, error := some ("Missing required fields"), invoice := none }, store)
  else if (store.find? (fun r => r.id == id)).isSome then
    ({ status := 500, error := some ("Failed to create invoice"), invoice := none }, store)
  else
    let store2 := store ++ [createRow body id link now]
    ({ status := 201, error := none, invoice := store2.find? (fun r => r.id == id) }, store2)

/-- The row update of `invoiceQueries.updateReminder`
(`UPDATE invoices SET reminder_count = reminder_count + 1,
last_reminder_at = ? WHERE id = ?`). -/
def bumpReminder (id : String) (now : Int) (r : Invoice) : Invoice :=
  if r.id == id then
    { r with reminder_count := r.reminder_count + 1, last_reminder_at := some now }
  else r

/-- `POST /v1/inv/:id/remind` (`api/src/routes/invoices.ts`): 404 when the
invoice does not exist, 400 when it is not pending or has no client email;
otherwise the reminder email is sent (its failure is caught, giving 500
before any row update) and then `updateReminder` runs. Returns the HTTP
status and the store. -/
def remind (store : List Invoice) (id : String) (now : Int) (emailOk : Bool) :
    Nat × List Invoice :=
  match store.find? (fun r => r.id == id) with
  | none => (404, store)
  | some inv =>
    if !(inv.status == "pending") then (400, store)
    else if !(jsTruthyOpt inv.client_email) then (400, store)
    else if emailOk then (200, store.map (bumpReminder id now))
    else (500, store)

/-- The row update of `invoiceQueries.updateStatus`
(`UPDATE invoices SET status = ?, paid_at = ?, tx_signature = ? WHERE id = ?`). -/
def setStatusRow (status : String) (paidAt : Option Int) (tx : Option String)
    (id : String) (r : Invoice) : Invoice :=
  if r.id == id then { r with status := status, paid_at := paidAt, tx_signature := tx }
  else r

/-- `PATCH /v1/inv/:id/status` (`api/src/routes/invoices.ts`): 404 when the
invoice does not exist; otherwise it stores the request's `status` string
as-is (no validation), sets `paid_at` to now exactly when the new status is
`"paid"`, and stores `txSignature || null`. -/
def patchStatus (store : List Invoice) (id status : String)
    (txSignature : Option String) (now : Int) : Nat × List Invoice :=
  match store.find? (fun r => r.id == id) with
  | none => (404, store)
  | some _ =>
    let paidAt : Option Int := if status == "paid" then some now else none
    (200, store.map (setStatusRow status paidAt (jsOrNull txSignature) id))

/-- The four documented invoice status values. -/
def validStatus (s : String) : Bool :=
  s == "pending" || s == "paid" || s == "cancelled" || s == "escrow_funded"

/-- A concrete pending invoice row used as a test fixture. -/
def inv0 : Invoice :=
  { id := "INV-1"
    creator_wallet := "CW"
    client_email := some ("a@b.c")
    client_wallet := none
    amount := 100
    token_mint := "USDC"
    due_date := 10
    memo := none
    status := "pending"
    created_at := 1
    paid_at := none
    tx_signature := none
    on_chain_address := none
    payment_link := some ("solana:CW")
    milestones := none
    reminder_count := 0
    last_reminder_at := none }

/-! ## Payment page (`app/pages/pay/[id].tsx`) -/

/-- `getPaymentAmount` on the payment page:
`doubleOrNothing ? data.amount * 2 : data.amount`. -/
def getPaymentAmount (doubleOrNothing : Bool) (amount : ℚ) : ℚ :=
  if doubleOrNothing then amount * 2 else amount

/-- Modelled from the spec: the payment amount for an arbitrary risk value;
the route computing it for the 0–50 slider (`POST /v1/spin/calculate-odds`
in `api/src/routes/lottery.ts`) is not among the provided sources. From
"Payment amount = invoice amount × (1 + risk/50)". -/
def paymentForRisk (amount risk : ℚ) : ℚ := amount * (1 + risk / 50)

/-- The two transfers built by `handlePay`: the invoice amount to the
creator, and the premium to the pool wallet. -/
structure PayTransfers where
  toCreator : ℚ
  toPool : ℚ
deriving Repr, DecidableEq

/-- The transfer amounts `handlePay` adds to the transaction:
`paymentAmount = getPaymentAmount()`, `premiumAmount = paymentAmount -
invoiceAmount`, and the premium transfer happens only when
`isLottery = doubleOrNothing && premiumAmount > 0 && poolWalletAddress`. -/
def handlePayTransfers (doubleOrNothing : Bool) (amount : ℚ)
    (poolWallet : Option String) : PayTransfers :=
  let paymentAmount := getPaymentAmount doubleOrNothing amount
  let premiumAmount := paymentAmount - amount
  let isLottery := doubleOrNothing && decide (0 < premiumAmount) && poolWallet.isSome
  { toCreator := amount, toPool := if isLottery then premiumAmount else 0 }

/-- The `(premiumPaid, riskSlider)` arguments of the `createLotteryEntry`
call in `handlePay`: the entry is created only in the double-or-nothing
branch, with `premiumPaid = paymentAmount - data.amount` and the literal
risk 50. -/
def lotteryEntryArgs (doubleOrNothing : Bool) (amount : ℚ) : Option (ℚ × ℚ) :=
  if doubleOrNothing then
    some (getPaymentAmount doubleOrNothing amount - amount, 50)
  else none

/-! ## Lottery settlement (modelled from the spec) -/

/-- Modelled from the spec: the lottery pool for a token mint
(`api/src/routes/lottery.ts` is not among the provided sources); the spec
fixes house edge 5%, minimum reserve 20%, maximum single win 10%. -/
structure LotteryPool where
  balance : ℚ
deriving Repr, DecidableEq

/-- Spec constant: maximum single payout, as a percentage of pool balance. -/
def MAX_WIN_PCT : ℚ := 10

/-- Spec constant: minimum pool reserve percentage. -/
def MIN_RESERVE_PCT : ℚ := 20

/-- Modelled from the spec: a lottery entry row — premium paid, risk
percentage, recorded outcome (`some true` = won), settlement timestamp. -/
structure LotteryEntrySt where
  premium : ℚ
  risk : ℚ
  outcome : Option Bool
  settledAt : Option Nat
deriving Repr, DecidableEq

/-- Result of one settlement call: the (possibly updated) entry and pool,
and the amount actually paid out. -/
structure SettleResult where
  entry : LotteryEntrySt
  pool : LotteryPool
  payout : ℚ
deriving Repr, DecidableEq

/-- Modelled from the spec: a payout is allowed when it is at most 10% of
the pool balance and leaves at least the 20% minimum reserve. -/
def payoutAllowed (pool : LotteryPool) (amt : ℚ) : Bool :=
  decide (amt ≤ MAX_WIN_PCT / 100 * pool.balance) &&
    decide (MIN_RESERVE_PCT / 100 * pool.balance ≤ pool.balance - amt)

/-- Modelled from the spec: settlement of a lottery entry
(`POST /v1/spin/settle/:entryId` in `api/src/routes/lottery.ts` is not
among the provided sources). An already-settled entry is returned
unchanged with no payout (settlement is idempotent, an entry is settled at
most once). Otherwise `draw` is the single pseudo-random outcome and
`refund` the amount a win would pay: a win within the pool constraints
records `won` and debits the pool; a win violating a constraint fails
closed — no payout, nothing recorded; a loss records `lost` with no
payout. -/
def settle (e : LotteryEntrySt) (pool : LotteryPool) (draw : Bool)
    (refund : ℚ) (now : Nat) : SettleResult :=
  match e.outcome with
  | some _ => { entry := e, pool := pool, payout := 0 }
  | none =>
    if draw then
      if payoutAllowed pool refund then
        { entry := { e with outcome := some true, settledAt := some now }
          pool := { balance := pool.balance - refund }
          payout := refund }
      else
        { entry := e, pool := pool, payout := 0 }
    else
      { entry := { e with outcome := some false, settledAt := some now }
        pool := pool
        payout := 0 }

/-! ## Solana Pay service (`api/src/services/solana-pay.ts`) -/

/-- The native SOL mint address (`SOL_MINT` in `solana-pay.ts`). -/
def SOL_MINT : String := "So11111111111111111111111111111111111111112"

/-- The components `generatePaymentLink` puts into the Solana Pay URL:
recipient, the decimal `amount` parameter, the optional `spl-token`
parameter, and the `reference`, `label` and `message` parameters. -/
structure PaymentLinkParams where
  recipient : String
  amountParam : ℚ
  splToken : Option String
  reference : String
  label : String
  message : String
deriving Repr, DecidableEq

/-- `generatePaymentLink` (`solana-pay.ts`): the tracking reference is a
keypair public key derived from the SHA-256 hash of the invoice id (the
hash and `Keypair.fromSeed` are external library functions, taken here as
parameters); the amount is converted from smallest units with 9 decimals
for native SOL and 6 otherwise; `spl-token` is added only for non-SOL
mints; the message embeds the invoice id and optional memo. -/
def generatePaymentLink (sha256 : String → Nat) (fromSeed : Nat → String)
    (invoiceId recipient : String) (amount : ℚ) (tokenMint : String)
    (memo : Option String) : PaymentLinkParams :=
  let reference := fromSeed (sha256 invoiceId)
  let decimals : Nat := if tokenMint == SOL_MINT then 9 else 6
  { recipient := recipient
    amountParam := amount / 10 ^ decimals
    splToken := if tokenMint == SOL_MINT then none else some tokenMint
    reference := reference
    label := "InvoiceNow"
    message := match memo with
      | some m => "Invoice " ++ invoiceId ++ ": " ++ m
      | none => "Invoice " ++ invoiceId }

/-- Transaction metadata as `verifyPayment` inspects it: the optional
on-chain error. -/
structure TxMeta where
  err : Option String
deriving Repr, DecidableEq

/-- A fetched transaction: its optional metadata. -/
structure TxInfo where
  meta : Option TxMeta
deriving Repr, DecidableEq

/-- What `connection.getTransaction` can do: throw, or return a
transaction-or-null. -/
inductive RpcOutcome where
  | throws
  | value (tx : Option TxInfo)
deriving Repr, DecidableEq

/-- `verifyPayment` (`solana-pay.ts`): false when the RPC call throws, the
transaction is not found, it has no metadata, or it has an on-chain error;
true otherwise. The expectation arguments are accepted but never read
(the recipient/amount check is a TODO in the source). -/
def verifyPayment (rpc : RpcOutcome) (expectedRecipient : String)
    (expectedAmount : ℚ) (expectedMint : String) : Bool :=
  match rpc with
  | .throws => false
  | .value tx =>
    match tx with
    | none => false
    | some t =>
      match t.meta with
      | none => false
      | some m => if m.err.isSome then false else true

/-! ## Helper lemmas -/

theorem invoiceIds_map_id (f : Invoice → Invoice) (h : ∀ r, (f r).id = r.id)
    (store : List Invoice) : invoiceIds (store.map f) = invoiceIds store := by
  unfold invoiceIds
  rw [List.map_map]
  exact congrArg store.map (funext h)

theorem find_append_singleton (l : List Invoice) (p : Invoice → Bool) (x : Invoice)
    (h : l.find? p = none) (hx : p x = true) : (l ++ [x]).find? p = some x := by
  induction l with
  | nil => simp [List.find?, hx]
  | cons a t ih =>
    cases hpa : p a with
    | true => rw [List.find?_cons_of_pos _ hpa] at h; exact absurd h (by simp)
    | false =>
      rw [List.find?_cons_of_neg _ (by simp [hpa])] at h
      rw [List.cons_append, List.find?_cons_of_neg _ (by simp [hpa])]
      exact ih h

theorem settle_payout_eq (e : LotteryEntrySt) (pool : LotteryPool) (draw : Bool)
    (refund : ℚ) (now : Nat) :
    (settle e pool draw refund now).payout =
      (if e.outcome.isNone && draw && payoutAllowed pool refund then refund else 0) := by
  cases ho : e.outcome with
  | some o => simp [settle, ho]
  | none =>
    cases draw with
    | false => simp [settle, ho]
    | true =>
      cases hpa : payoutAllowed pool refund with
      | false => simp [settle, ho, hpa]
      | true => simp [settle, ho, hpa]

theorem settle_balance_eq (e : LotteryEntrySt) (pool : LotteryPool) (draw : Bool)
    (refund : ℚ) (now : Nat) :
    (settle e pool draw refund now).pool.balance =
      pool.balance - (settle e pool draw refund now).payout := by
  cases ho : e.outcome with
  | some o => simp [settle, ho]
  | none =>
    cases draw with
    | false => simp [settle, ho]
    | true =>
      cases hpa : payoutAllowed pool refund with
      | false => simp [settle, ho, hpa]
      | true => simp [settle, ho, hpa]

/-! ## Claim theorems -/

/-- Claim C1: for every invoice amount and risk in [0,50] the payment is
amount × (1 + risk/50); the payment page's `getPaymentAmount` agrees with
that formula at risk 0 (double-or-nothing off) and risk 50
(double-or-nothing on), the only risk values it encodes. -/
theorem c1_payment_formula (amount : ℚ) (db : Bool) :
    paymentForRisk amount 0 = getPaymentAmount false amount ∧
    paymentForRisk amount 50 = getPaymentAmount true amount ∧
    getPaymentAmount db amount = paymentForRisk amount (if db then 50 else 0) := by
  have h0 : paymentForRisk amount 0 = amount := by
    unfold paymentForRisk; norm_num
  have h50 : paymentForRisk amount 50 = amount * 2 := by
    unfold paymentForRisk; norm_num
  refine ⟨?_, ?_, ?_⟩
  · rw [h0]; rfl
  · rw [h50]; rfl
  · cases db with
    | false => rw [if_neg (by simp), h0]; rfl
    | true => rw [if_pos rfl, h50]; rfl

/-- Claim C2: settlement is idempotent — settling an entry whose outcome is
already recorded returns the same entry (same recorded outcome), leaves the
pool untouched and pays out nothing, so an entry is settled at most once. -/
theorem c2_settle_idempotent (e : LotteryEntrySt) (o : Bool) (pool : LotteryPool)
    (draw : Bool) (refund : ℚ) (now : Nat) (h : e.outcome = some o) :
    settle e pool draw refund now = { entry := e, pool := pool, payout := 0 } := by
  simp [settle, h]

theorem c2_witness :
    ({ premium := 100, risk := 50, outcome := some true, settledAt := some 3 } :
        LotteryEntrySt).outcome = some true ∧
    settle { premium := 100, risk := 50, outcome := some true, settledAt := some 3 }
        { balance := 1000 } true 200 9 =
      { entry := { premium := 100, risk := 50, outcome := some true, settledAt := some 3 }
        pool := { balance := 1000 }, payout := 0 } :=
  ⟨rfl, c2_settle_idempotent _ true _ _ _ _ rfl⟩

/-- Claim C3: every settlement pays out at most 10% of the pool balance,
leaves at least the 20% minimum reserve, debits the pool by exactly the
payout, and pays the refund only when the entry is unsettled, the draw won,
and both pool constraints hold — otherwise the payout is zero (fail
closed). -/
theorem c3_pool_constraints (e : LotteryEntrySt) (pool : LotteryPool) (draw : Bool)
    (refund : ℚ) (now : Nat) (hb : 0 ≤ pool.balance) :
    (settle e pool draw refund now).payout ≤ MAX_WIN_PCT / 100 * pool.balance ∧
    MIN_RESERVE_PCT / 100 * pool.balance ≤
      pool.balance - (settle e pool draw refund now).payout ∧
    (settle e pool draw refund now).pool.balance =
      pool.balance - (settle e pool draw refund now).payout ∧
    (settle e pool draw refund now).payout =
      (if e.outcome.isNone && draw && payoutAllowed pool refund then refund else 0) := by
  refine ⟨?_, ?_, settle_balance_eq e pool draw refund now,
    settle_payout_eq e pool draw refund now⟩ <;>
  · rw [settle_payout_eq]
    by_cases hc : (e.outcome.isNone && draw && payoutAllowed pool refund) = true
    · have hpa : payoutAllowed pool refund = true := by
        simp only [Bool.and_eq_true] at hc
        exact hc.2
      unfold payoutAllowed at hpa
      simp only [Bool.and_eq_true, decide_eq_true_eq] at hpa
      rw [if_pos hc]
      first
        | exact hpa.1
        | exact hpa.2
    · rw [if_neg hc]
      first
        | (rw [show MAX_WIN_PCT = (10 : ℚ) from rfl]
           exact mul_nonneg (by norm_num) hb)
        | (rw [show MIN_RESERVE_PCT = (20 : ℚ) from rfl]
           norm_num
           linarith)

def poolW : LotteryPool := { balance := 1000 }

def entW : LotteryEntrySt := { premium := 100, risk := 50, outcome := none, settledAt := none }

theorem c3_witness :
    (0 : ℚ) ≤ poolW.balance ∧
    ((settle entW poolW true 50 4).payout ≤ MAX_WIN_PCT / 100 * poolW.balance ∧
     MIN_RESERVE_PCT / 100 * poolW.balance ≤
       poolW.balance - (settle entW poolW true 50 4).payout ∧
     (settle entW poolW true 50 4).pool.balance =
       poolW.balance - (settle entW poolW true 50 4).payout ∧
     (settle entW poolW true 50 4).payout =
       (if entW.outcome.isNone && true && payoutAllowed poolW 50 then (50 : ℚ) else 0)) := by
  exact ⟨by norm_num [poolW], c3_pool_constraints entW poolW true 50 4 (by norm_num [poolW])⟩

/-- Claim C4 counterexample: the PATCH status handler performs no
validation — patching the fixture invoice with the status string "bogus"
stores "bogus", which is none of pending/paid/cancelled/escrow_funded. -/
theorem c4_counterexample :
    validStatus ("bogus") = false ∧
    (patchStatus [inv0] ("INV-1") ("bogus") none 7).2.map (fun r => r.status) =
      [("bogus" : String)] := by
  decide

/-- Claim C4 (amended): an invoice is created with status "pending", no
invoice-API operation removes an invoice row (the set of ids is preserved
by the status and reminder handlers and only grows on creation), and the
PATCH status handler stores exactly the status string supplied by the
request — it is not restricted to the four documented values. -/
theorem c4_status_lifecycle (store : List Invoice) (id status : String)
    (tx : Option String) (now : Int) (body : CreateInvoiceBody) (nid link : String)
    (now2 : Int) (emailOk : Bool) :
    (createRow body nid link now2).status = "pending" ∧
    invoiceIds (patchStatus store id status tx now).2 = invoiceIds store ∧
    invoiceIds (remind store id now emailOk).2 = invoiceIds store ∧
    (invoiceIds (createInvoice store body nid link now2).2 = invoiceIds store ∨
     invoiceIds (createInvoice store body nid link now2).2 = invoiceIds store ++ [nid]) ∧
    (patchStatus store id status tx now).2.map (fun r => r.status) =
      store.map (fun r => if r.id == id then status else r.status) := by
  refine ⟨rfl, ?_, ?_, ?_, ?_⟩
  · cases hf : store.find? (fun r => r.id == id) with
    | none => simp [patchStatus, hf]
    | some v =>
      simp only [patchStatus, hf]
      exact invoiceIds_map_id _ (fun r => by unfold setStatusRow; split <;> rfl) store
  · cases hf : store.find? (fun r => r.id == id) with
    | none => simp [remind, hf]
    | some v =>
      simp only [remind, hf]
      by_cases h1 : (v.status == "pending") = true
      · by_cases h2 : jsTruthyOpt v.client_email = true
        · cases emailOk with
          | true =>
            simp only [h1, h2, Bool.not_true, Bool.false_eq_true, if_false, if_true]
            exact invoiceIds_map_id _ (fun r => by unfold bumpReminder; split <;> rfl) store
          | false => simp [h1, h2]
        · simp [h1, h2]
      · simp [h1]
  · have hkey : (!(jsTruthyStr body.creatorWallet) || !(jsTruthyInt body.amount) ||
        !(jsTruthyStr body.tokenMint) || !(jsTruthyInt body.dueDate)) =
        !(requiredPresent body) := by
      unfold requiredPresent
      cases jsTruthyStr body.creatorWallet <;> cases jsTruthyInt body.amount <;>
        cases jsTruthyStr body.tokenMint <;> cases jsTruthyInt body.dueDate <;> rfl
    cases hrp : requiredPresent body with
    | false =>
      have hg : (!(jsTruthyStr body.creatorWallet) || !(jsTruthyInt body.amount) ||
          !(jsTruthyStr body.tokenMint) || !(jsTruthyInt body.dueDate)) = true := by
        rw [hkey, hrp]; rfl
      left
      simp [createInvoice, hg]
    | true =>
      have hg : (!(jsTruthyStr body.creatorWallet) || !(jsTruthyInt body.amount) ||
          !(jsTruthyStr body.tokenMint) || !(jsTruthyInt body.dueDate)) = false := by
        rw [hkey, hrp]; rfl
      cases hf : (store.find? (fun r => r.id == nid)).isSome with
      | true =>
        left
        simp [createInvoice, hg, hf]
      | false =>
        right
        simp [createInvoice, hg, hf, invoiceIds, createRow]
  · cases hf : store.find? (fun r => r.id == id) with
    | none =>
      simp only [patchStatus, hf]
      have hall := List.find?_eq_none.mp hf
      refine (List.map_congr_left (fun r hr => ?_)).symm
      have hne : (r.id == id) = false := by
        have := hall r hr
        simpa using this
      simp [hne]
    | some v =>
      simp only [patchStatus, hf, List.map_map]
      refine List.map_congr_left (fun r hr => ?_)
      simp only [Function.comp]
      unfold setStatusRow
      by_cases hid : (r.id == id) = true
      · simp [hid]
      · simp [hid]

/-- Claim C5 counterexample: with double-or-nothing selected but no pool
wallet address available, `handlePay` transfers only the invoice amount —
for a 100-unit invoice the creator receives 100, the pool 0, while the
total payment is 200. -/
theorem c5_counterexample :
    (handlePayTransfers true 100 none).toCreator +
        (handlePayTransfers true 100 none).toPool ≠
      getPaymentAmount true 100 := by
  norm_num [handlePayTransfers, getPaymentAmount]

/-- Claim C5 (amended): in the double-or-nothing flow, provided the pool
wallet address is available and the invoice amount is positive, the amount
transferred to the pool plus the amount transferred to the creator equals
the total payment, the pool transfer is the premium (payment minus invoice
amount), and the premium recorded on the lottery entry is always
paymentAmount − data.amount. -/
theorem c5_premium_conservation (amount : ℚ) (poolWallet : Option String)
    (hw : poolWallet.isSome = true) (ha : 0 < amount) :
    (handlePayTransfers true amount poolWallet).toCreator +
        (handlePayTransfers true amount poolWallet).toPool =
      getPaymentAmount true amount ∧
    (handlePayTransfers true amount poolWallet).toPool =
      getPaymentAmount true amount - amount ∧
    lotteryEntryArgs true amount = some (getPaymentAmount true amount - amount, 50) := by
  have hprem : getPaymentAmount true amount - amount = amount := by
    rw [show getPaymentAmount true amount = amount * 2 from rfl]
    ring
  have key : handlePayTransfers true amount poolWallet =
      { toCreator := amount, toPool := amount } := by
    simp [handlePayTransfers, hw, hprem, decide_eq_true ha]
  refine ⟨?_, ?_, rfl⟩
  · rw [key]
    show amount + amount = getPaymentAmount true amount
    rw [show getPaymentAmount true amount = amount * 2 from rfl]
    ring
  · rw [key, hprem]

theorem c5_witness :
    ((some ("POOL") : Option String).isSome = true) ∧ ((0 : ℚ) < 100) ∧
    ((handlePayTransfers true 100 (some ("POOL"))).toCreator +
        (handlePayTransfers true 100 (some ("POOL"))).toPool =
      getPaymentAmount true 100 ∧
    (handlePayTransfers true 100 (some ("POOL"))).toPool =
      getPaymentAmount true 100 - 100 ∧
    lotteryEntryArgs true 100 = some (getPaymentAmount true 100 - 100, 50)) :=
  ⟨rfl, by norm_num, c5_premium_conservation 100 (some ("POOL")) rfl (by norm_num)⟩

/-- Claim C6: the payment page's double-or-nothing flow always creates its
lottery entry with a risk slider of 50 and a premium of payment minus
invoice amount, the total payment being exactly twice the invoice amount;
no entry is created outside that flow. -/
theorem c6_double_or_nothing_fixed_risk (amount : ℚ) :
    lotteryEntryArgs true amount = some (getPaymentAmount true amount - amount, 50) ∧
    getPaymentAmount true amount = 2 * amount ∧
    lotteryEntryArgs false amount = none := by
  refine ⟨rfl, ?_, rfl⟩
  rw [show getPaymentAmount true amount = amount * 2 from rfl]
  ring

/-- Claim C7: creating an invoice with any required field falsy responds
400 with a JSON error and inserts nothing; with all four required fields
truthy (and the freshly generated id unused) it appends exactly the new
row and responds 201 with the stored invoice. -/
theorem c7_create_invoice_validation (store : List Invoice) (body : CreateInvoiceBody)
    (id link : String) (now : Int)
    (hfresh : store.find? (fun r => r.id == id) = none) :
    createInvoice store body id link now =
      if requiredPresent body then
        ({ status := 201, error := none, invoice := some (createRow body id link now) },
          store ++ [createRow body id link now])
      else
        ({ status := 400, error := some ("Missing required fields"), invoice := none },
          store) := by
  have hkey : (!(jsTruthyStr body.creatorWallet) || !(jsTruthyInt body.amount) ||
      !(jsTruthyStr body.tokenMint) || !(jsTruthyInt body.dueDate)) =
      !(requiredPresent body) := by
    unfold requiredPresent
    cases jsTruthyStr body.creatorWallet <;> cases jsTruthyInt body.amount <;>
      cases jsTruthyStr body.tokenMint <;> cases jsTruthyInt body.dueDate <;> rfl
  have hfind := find_append_singleton store (fun r => r.id == id)
    (createRow body id link now) hfresh (by simp [createRow])
  cases hrp : requiredPresent body with
  | false =>
    have hg : (!(jsTruthyStr body.creatorWallet) || !(jsTruthyInt body.amount) ||
        !(jsTruthyStr body.tokenMint) || !(jsTruthyInt body.dueDate)) = true := by
      rw [hkey, hrp]; rfl
    simp [createInvoice, hg]
  | true =>
    have hg : (!(jsTruthyStr body.creatorWallet) || !(jsTruthyInt body.amount) ||
        !(jsTruthyStr body.tokenMint) || !(jsTruthyInt body.dueDate)) = false := by
      rw [hkey, hrp]; rfl
    simp [createInvoice, hg, hfresh, hfind]

def bodyW : CreateInvoiceBody :=
  { creatorWallet := "CW"
    clientEmail := none
    amount := 100
    tokenMint := "USDC"
    dueDate := 10
    memo := none
    milestones := none }

theorem c7_witness :
    (([] : List Invoice).find? (fun r => r.id == "INV-9") = none) ∧
    createInvoice [] bodyW ("INV-9") ("lnk") 0 =
      (if requiredPresent bodyW then
        ({ status := 201, error := none,
           invoice := some (createRow bodyW ("INV-9") ("lnk") 0) },
          [] ++ [createRow bodyW ("INV-9") ("lnk") 0])
       else
        ({ status := 400, error := some ("Missing required fields"), invoice := none },
          ([] : List Invoice))) :=
  ⟨rfl, c7_create_invoice_validation [] bodyW ("INV-9") ("lnk") 0 rfl⟩

/-- Claim C8: the reminder handler responds 200 exactly when the invoice
exists, is pending, has a truthy client email and the email sends (404
when missing, 400 otherwise, 500 on email failure); only the 200 response
touches the store, and the row update increments reminder_count by exactly
one and sets last_reminder_at on the matching row, changing no other field
and removing no row. -/
theorem c8_remind_spec (store : List Invoice) (id : String) (now : Int) (emailOk : Bool) :
    (remind store id now emailOk).1 =
      (match store.find? (fun r => r.id == id) with
       | none => 404
       | some inv =>
         if inv.status == "pending" && jsTruthyOpt inv.client_email then
           (if emailOk then 200 else 500)
         else 400) ∧
    (remind store id now emailOk).2 =
      (if (remind store id now emailOk).1 == 200 then
        store.map (bumpReminder id now)
      else store) ∧
    invoiceIds (remind store id now emailOk).2 = invoiceIds store ∧
    (∀ r : Invoice,
      (bumpReminder id now r).reminder_count =
        r.reminder_count + (if r.id == id then 1 else 0) ∧
      (bumpReminder id now r).last_reminder_at =
        (if r.id == id then some now else r.last_reminder_at) ∧
      (bumpReminder id now r).id = r.id ∧
      (bumpReminder id now r).creator_wallet = r.creator_wallet ∧
      (bumpReminder id now r).client_email = r.client_email ∧
      (bumpReminder id now r).client_wallet = r.client_wallet ∧
      (bumpReminder id now r).amount = r.amount ∧
      (bumpReminder id now r).token_mint = r.token_mint ∧
      (bumpReminder id now r).due_date = r.due_date ∧
      (bumpReminder id now r).memo = r.memo ∧
      (bumpReminder id now r).status = r.status ∧
      (bumpReminder id now r).created_at = r.created_at ∧
      (bumpReminder id now r).paid_at = r.paid_at ∧
      (bumpReminder id now r).tx_signature = r.tx_signature ∧
      (bumpReminder id now r).on_chain_address = r.on_chain_address ∧
      (bumpReminder id now r).payment_link = r.payment_link ∧
      (bumpReminder id now r).milestones = r.milestones) := by
  refine ⟨?_, ?_, ?_, ?_⟩
  · cases hf : store.find? (fun r => r.id == id) with
    | none => simp [remind, hf]
    | some v =>
      simp only [remind, hf]
      by_cases h1 : (v.status == "pending") = true
      · by_cases h2 : jsTruthyOpt v.client_email = true
        · cases emailOk <;> simp [h1, h2]
        · simp [h1, h2]
      · simp [h1]
  · cases hf : store.find? (fun r => r.id == id) with
    | none => simp [remind, hf]
    | some v =>
      simp only [remind, hf]
      by_cases h1 : (v.status == "pending") = true
      · by_cases h2 : jsTruthyOpt v.client_email = true
        · cases emailOk <;> simp [h1, h2]
        · simp [h1, h2]
      · simp [h1]
  · cases hf : store.find? (fun r => r.id == id) with
    | none => simp [remind, hf]
    | some v =>
      simp only [remind, hf]
      by_cases h1 : (v.status == "pending") = true
      · by_cases h2 : jsTruthyOpt v.client_email = true
        · cases emailOk with
          | true =>
            simp only [h1, h2, Bool.not_true, Bool.false_eq_true, if_false, if_true]
            exact invoiceIds_map_id _ (fun r => by unfold bumpReminder; split <;> rfl) store
          | false => simp [h1, h2]
        · simp [h1, h2]
      · simp [h1]
  · intro r
    unfold bumpReminder
    by_cases hid : (r.id == id) = true
    · simp [hid]
    · simp [hid]

/-- Claim C9: `verifyPayment` is total and ignores its expectation
arguments — its result depends only on the RPC outcome: false when the
lookup throws, the transaction is missing, it has no metadata, or the
metadata carries an error, and true for every found error-free
transaction. -/
theorem c9_verify_payment_total (rpc : RpcOutcome) (r1 r2 m1 m2 e : String)
    (a1 a2 : ℚ) :
    verifyPayment rpc r1 a1 m1 = verifyPayment rpc r2 a2 m2 ∧
    verifyPayment RpcOutcome.throws r1 a1 m1 = false ∧
    verifyPayment (RpcOutcome.value none) r1 a1 m1 = false ∧
    verifyPayment (RpcOutcome.value (some { meta := none })) r1 a1 m1 = false ∧
    verifyPayment (RpcOutcome.value (some { meta := some { err := some e } }))
        r1 a1 m1 = false ∧
    verifyPayment (RpcOutcome.value (some { meta := some { err := none } }))
        r1 a1 m1 = true :=
  ⟨rfl, rfl, rfl, rfl, rfl, rfl⟩

/-- Claim C10: `generatePaymentLink` is deterministic (two calls with the
same arguments yield the same link); the tracking reference is the keypair
public key derived from the SHA-256 hash of the invoice id alone —
unchanged under any variation of recipient, amount, mint and memo — and
the amount parameter divides by 10^9 for the native SOL mint and 10^6 for
every other mint. -/
theorem c10_payment_link_reference (sha256 : String → Nat) (fromSeed : Nat → String)
    (invoiceId recipient recipient2 : String) (amount amount2 : ℚ)
    (tokenMint tokenMint2 : String) (memo memo2 : Option String) :
    generatePaymentLink sha256 fromSeed invoiceId recipient amount tokenMint memo =
      generatePaymentLink sha256 fromSeed invoiceId recipient amount tokenMint memo ∧
    (generatePaymentLink sha256 fromSeed invoiceId recipient amount tokenMint
        memo).reference = fromSeed (sha256 invoiceId) ∧
    (generatePaymentLink sha256 fromSeed invoiceId recipient2 amount2 tokenMint2
        memo2).reference =
      (generatePaymentLink sha256 fromSeed invoiceId recipient amount tokenMint
        memo).reference ∧
    (generatePaymentLink sha256 fromSeed invoiceId recipient amount tokenMint
        memo).amountParam =
      amount / 10 ^ (if tokenMint == SOL_MINT then (9 : ℕ) else 6) :=
  ⟨rfl, rfl, rfl, rfl⟩
